import Mathlib

/-!
Shallow embedding of the shape algebra and two operator kernels of
`mlprodict` (files `mlprodict/onnxrt/shape_object.py`,
`mlprodict/onnxrt/ops_cpu/op_label_encoder.py`,
`mlprodict/onnxrt/ops_cpu/op_linear_regressor.py`).

Python machine integers are arbitrary precision, so dimensions are
modelled with `Int`; numpy float attribute arrays of the label encoder
are modelled with `Rat` (exact for every input the theorems use).
-/

namespace MlProdict

mutual

/-- The value stored in `DimensionObject._dim`: a Python `int`, `str`,
`None`, a `ShapeOperator`, or another `DimensionObject`. -/
inductive DimVal where
  | int : Int → DimVal
  | str : String → DimVal
  | unknown : DimVal
  | op : ShapeOp → DimVal
  | dim : DimensionObject → DimVal
deriving DecidableEq

/-- `DimensionObject`: one dimension of a shape, wrapping its `_dim` field. -/
inductive DimensionObject where
  | mk : DimVal → DimensionObject
deriving DecidableEq

/-- The shape operators constructed by the source: `ShapeOperatorAdd`,
`ShapeOperatorMul`, `ShapeOperatorMax`, each holding its two
`DimensionObject` arguments. -/
inductive ShapeOp where
  | add : DimensionObject → DimensionObject → ShapeOp
  | mul : DimensionObject → DimensionObject → ShapeOp
  | max : DimensionObject → DimensionObject → ShapeOp
deriving DecidableEq

end

/-- Accessor for the `_dim` field (the `dim` property of the source). -/
def DimensionObject.dim : DimensionObject → DimVal
  | .mk d => d

mutual

/-- Executable structural size of a dimension (termination measure). -/
def DimensionObject.msz : DimensionObject → Nat
  | .mk d => 1 + d.msz

/-- Executable structural size of a stored dimension value. -/
def DimVal.msz : DimVal → Nat
  | .int _ => 1
  | .str _ => 1
  | .unknown => 1
  | .op o => 1 + o.msz
  | .dim d => 1 + d.msz

/-- Executable structural size of a shape operator. -/
def ShapeOp.msz : ShapeOp → Nat
  | .add x y => 1 + x.msz + y.msz
  | .mul x y => 1 + x.msz + y.msz
  | .max x y => 1 + x.msz + y.msz

end

/-- Result of `evaluate`: a Python `int` or `str`. -/
inductive EvalRes where
  | int : Int → EvalRes
  | str : String → EvalRes
deriving DecidableEq

/-- `str(v)` on an evaluation result, as used by `_evaluate_string_`. -/
def EvalRes.toStr : EvalRes → String
  | .int n => toString n
  | .str s => s

/-- The keyword bindings passed to `evaluate` (a Python dict). -/
def Bindings := List (String × EvalRes)

/-- Dict lookup `kwargs[s]` guarded by `s in kwargs`. -/
def Bindings.find : Bindings → String → Option EvalRes
  | [], _ => none
  | (k, v) :: rest, s => if k = s then some v else Bindings.find rest s

/-- `DimensionObject.evaluate` on an unknown dimension returns
`"n" + hex(id(self))`, a per-object generated name.  Object identities do
not exist in the embedding; the generated name is modelled by a fixed
token, which is adequate because no verified claim inspects generated
names (every theorem below either fixes the evaluation result to an
integer or never reaches this branch). -/
def genDimName : String := "nid"

/-- Numeric/string step of `ShapeBinaryOperator.evaluate`:
if both arguments are integers apply `fct`, otherwise build the string
produced by `_evaluate_string_` (`isFct = true` selects the
`ShapeBinaryFctOperator` formatting used by `max`). -/
def binOpEval (name : String) (fct : Int → Int → Int) (isFct : Bool)
    (vx vy : EvalRes) : EvalRes :=
  match vx, vy with
  | .int a, .int b => .int (fct a b)
  | _, _ =>
    if isFct then .str (name ++ "(" ++ vx.toStr ++ "," ++ vy.toStr ++ ")")
    else .str ("(" ++ vx.toStr ++ ")" ++ name ++ "(" ++ vy.toStr ++ ")")

mutual

/-- `DimensionObject.evaluate(**kwargs)` from the source: an `int` is
returned as is, an operator or nested dimension is evaluated
recursively, a string is looked up in the bindings (and kept when
absent), an unknown dimension produces a generated name. -/
def DimensionObject.evaluate : DimensionObject → Bindings → EvalRes
  | .mk (.int n), _ => .int n
  | .mk (.str s), kw =>
    match kw.find s with
    | some v => v
    | none => .str s
  | .mk .unknown, _ => .str genDimName
  | .mk (.op o), kw => o.evaluate kw
  | .mk (.dim d), kw => d.evaluate kw

/-- `ShapeOperator.evaluate(**kwargs)`: evaluate both arguments, then
apply the numeric function when no string remains, otherwise the string
formatting of the operator. -/
def ShapeOp.evaluate : ShapeOp → Bindings → EvalRes
  | .add x y, kw => binOpEval "+" (fun a b => a + b) false (x.evaluate kw) (y.evaluate kw)
  | .mul x y, kw => binOpEval "*" (fun a b => a * b) false (x.evaluate kw) (y.evaluate kw)
  | .max x y, kw => binOpEval "max" (fun a b => max a b) true (x.evaluate kw) (y.evaluate kw)

end

/-- The Python values a `DimensionObject` is constructed from or
compared to: `int`, `str`, `None`, `ShapeOperator`, `DimensionObject`. -/
inductive PyValue where
  | int : Int → PyValue
  | str : String → PyValue
  | pynone : PyValue
  | op : ShapeOp → PyValue
  | dimObj : DimensionObject → PyValue
deriving DecidableEq

/-- View of a stored `_dim` value as the Python value it is, used when
a raw `_dim` becomes the right-hand side of a `==` comparison. -/
def DimVal.toPyValue : DimVal → PyValue
  | .int n => .int n
  | .str s => .str s
  | .unknown => .pynone
  | .op o => .op o
  | .dim d => .dimObj d

/-- Measure on comparison arguments used to justify termination of
`DimensionObject.eqPy` (counts only structure that recursion descends
into, not integer payloads). -/
def PyValue.msize : PyValue → Nat
  | .dimObj d => 1 + d.msz
  | .op o => 1 + o.msz
  | _ => 0

/-- `DimensionObject.__eq__(self, v)` from the source.
For `v` an `int` or `str` it compares `self._dim == v` (recursing when
`_dim` is itself a `DimensionObject`, false for `None` / operators /
the other scalar type); for `v` a `DimensionObject` it returns
`v == self._dim`; for `v` a `ShapeOperator` it evaluates `v` with no
bindings and compares the result to `self._dim`; for `v = None` it
tests `self._dim is None`. -/
def DimensionObject.eqPy : DimensionObject → PyValue → Bool
  | .mk d, .int n =>
    match d with
    | .int m => m == n
    | .dim dd => dd.eqPy (.int n)
    | _ => false
  | .mk d, .str s =>
    match d with
    | .str t => t == s
    | .dim dd => dd.eqPy (.str s)
    | _ => false
  | .mk d, .pynone =>
    match d with
    | .unknown => true
    | _ => false
  | .mk (.int m), .dimObj v => v.eqPy (.int m)
  | .mk (.str t), .dimObj v => v.eqPy (.str t)
  | .mk .unknown, .dimObj v => v.eqPy .pynone
  | .mk (.op o), .dimObj v => v.eqPy (.op o)
  | .mk (.dim dd), .dimObj v => v.eqPy (.dimObj dd)
  | .mk d, .op o =>
    match ShapeOp.evaluate o [], d with
    | .int a, .int m => a == m
    | .int a, .dim dd => dd.eqPy (.int a)
    | .str s, .str t => s == t
    | .str s, .dim dd => dd.eqPy (.str s)
    | _, _ => false
termination_by self v => self.msz + PyValue.msize v
decreasing_by
  all_goals simp [PyValue.msize, DimensionObject.msz, DimVal.msz]
  all_goals omega

/-- `DimensionObject.__init__(self, obj)` from the source: `None`, the
integer `0` and the string `"?"` all store the unknown placeholder
(`_dim = None`); an `int`, `str`, `ShapeOperator` or `DimensionObject`
is stored as is — for a `DimensionObject` argument the guards
`obj == 0` and `obj == "?"` go through `DimensionObject.__eq__`. -/
def DimensionObject.ofArg : PyValue → DimensionObject
  | .pynone => .mk .unknown
  | .int n => if n = 0 then .mk .unknown else .mk (.int n)
  | .str s => if s = "?" then .mk .unknown else .mk (.str s)
  | .op o => .mk (.op o)
  | .dimObj d =>
    if d.eqPy (.int 0) || d.eqPy (.str "?") then .mk .unknown else .mk (.dim d)

/-- `DimensionObject._same_(obj)`: returns `obj` when it is already a
`DimensionObject`, otherwise converts it through the constructor. -/
def DimensionObject.same : PyValue → DimensionObject
  | .dimObj d => d
  | v => DimensionObject.ofArg v

/-- `DimensionObject.__add__`: wraps a `ShapeOperatorAdd` over `self`
and `_same_(obj)` in a new `DimensionObject`. -/
def DimensionObject.add (self : DimensionObject) (obj : PyValue) : DimensionObject :=
  .mk (.op (.add self (DimensionObject.same obj)))

/-- `DimensionObject.__mul__`: wraps a `ShapeOperatorMul` over `self`
and `_same_(obj)` in a new `DimensionObject`. -/
def DimensionObject.mul (self : DimensionObject) (obj : PyValue) : DimensionObject :=
  .mk (.op (.mul self (DimensionObject.same obj)))

/-- Python `==` between two raw `_dim` values, as used by the line
`self._dim == obj._dim` of `DimensionObject.__gt__`.  A stored
`DimensionObject` dispatches to `DimensionObject.__eq__` (directly or
reflected); `None == None` is true; two stored `ShapeOperator`s are
compared by object identity in Python, modelled structurally — for
structurally equal operators both give the overall `__gt__` result
`False` (identity-equal returns `False` at once, identity-distinct
falls through to evaluating both sides, which agree on equal
deterministic expressions). -/
def dimValEq (a b : DimVal) : Bool :=
  match a, b with
  | .dim d, b => d.eqPy b.toPyValue
  | a, .dim d => d.eqPy a.toPyValue
  | .int m, .int n => m == n
  | .str s, .str t => s == t
  | .unknown, .unknown => true
  | .op o1, .op o2 => decide (o1 = o2)
  | _, _ => false

/-- `DimensionObject.__gt__(self, obj)` for `obj` a `DimensionObject`
(the `obj is None` early branch of the source is not modelled — no
claim calls `>` with a bare `None`).  `some b` is the returned boolean,
`none` models the `RuntimeError` raised when neither side evaluates to
an integer. -/
def DimensionObject.gtPy (self obj : DimensionObject) : Option Bool :=
  match self.dim, obj.dim with
  | .int m, .int n => some (decide (m > n))
  | .int _, .unknown => some false
  | .unknown, .int _ => some true
  | .int _, .str _ => some false
  | .str _, .int _ => some true
  | sd, od =>
    if dimValEq sd od then some false
    else
      let ev1 := self.evaluate []
      let ev2 := obj.evaluate []
      if ev1 = ev2 then some false
      else
        match ev1, ev2 with
        | .int a, .int b => some (decide (a > b))
        | _, _ => none

/-- Element types are opaque to the shape algebra (numpy dtypes or the
string `"map"`); only their presence matters, so they are modelled as
strings. -/
def DType := String
deriving DecidableEq

/-- The kinds of argument accepted by `ShapeObject.__init__`:
a numpy array (only its `.shape` tuple and `.dtype` are read), a
description dict `{"type": {"kind": ..., ...}}` of kind `tensor`,
`map` or anything else (rejected), a tuple/list of dimension
specifiers, or `None` (unknown shape). -/
inductive ShapeArg where
  | ndarray : List Nat → DType → ShapeArg
  | dictTensor : List PyValue → Option DType → ShapeArg
  | dictMap : ShapeArg
  | dictOther : ShapeArg
  | dims : List PyValue → ShapeArg
  | pynone : ShapeArg

/-- `ShapeObject`: the `_shape` field (`None` for the unknown-shape
sentinel, otherwise the list of `DimensionObject`s), the `_dtype`
field, and the debug `name`. -/
structure ShapeObject where
  _shape : Option (List DimensionObject)
  _dtype : Option DType
  name : Option String

/-- The tuple comparison `tshape["shape"] == ("?",)` of the dict
branch of `ShapeObject.__init__` (elementwise Python `==` against the
one-element tuple holding the string `"?"`). -/
def eqQmarkTuple : List PyValue → Bool
  | [.str s] => s = "?"
  | [.dimObj d] => d.eqPy (.str "?")
  | _ => false

/-- The element type `ShapeObject.__init__` ends up storing for a given
argument: the array dtype for a numpy array, the `elem` field for a
tensor dict, the literal `"map"` for a map dict, the `dtype` parameter
for a tuple/list or `None` argument; `dictOther` is rejected before any
dtype is resolved. -/
def resolvedDtype : ShapeArg → Option DType → Option DType
  | .ndarray _ d, _ => some d
  | .dictTensor _ elem, _ => elem
  | .dictMap, _ => some "map"
  | .dictOther, _ => none
  | .dims _, dtype => dtype
  | .pynone, dtype => dtype

/-- The `use_n1` step of `ShapeObject.__init__`: when the first stored
dimension exists and is unknown, its `_dim` is rewritten to the
symbol `"n"`. -/
def applyUseN1 : Option (List DimensionObject) → Option (List DimensionObject)
  | some (d :: rest) =>
    match d.dim with
    | .unknown => some (.mk (.str "n") :: rest)
    | _ => some (d :: rest)
  | sh => sh

/-- The `_shape` field `ShapeObject.__init__` stores for a given
argument, each entry wrapped in a `DimensionObject` by the
constructor: the array's shape for a numpy array, `None` for the
`("?",)` tensor-dict shape, the wrapped dims otherwise, `[]` for a map
dict, `ValueError` for an unrecognized dict kind, `None` for a `None`
argument (unknown shape). -/
def resolvedShape : ShapeArg → Except String (Option (List DimensionObject))
  | .ndarray ns _ =>
    .ok (some (ns.map (fun n => DimensionObject.ofArg (.int (n : Int)))))
  | .dictTensor shp _ =>
    if eqQmarkTuple shp then .ok none
    else .ok (some (shp.map DimensionObject.ofArg))
  | .dictMap => .ok (some [])
  | .dictOther => .error "Wrong shape value"
  | .dims l => .ok (some (l.map DimensionObject.ofArg))
  | .pynone => .ok none

/-- `ShapeObject.__init__(self, shape, dtype, use_n1, name)`: resolves
`_shape` and `_dtype` per argument kind (`resolvedShape`,
`resolvedDtype`), raises `ValueError` on an unrecognized dict kind,
raises `ValueError` when the resolved dtype is `None`, then applies
the `use_n1` rewriting. -/
def ShapeObject.init (shape : ShapeArg) (dtype : Option DType)
    (use_n1 : Bool) (name : Option String) : Except String ShapeObject :=
  match resolvedShape shape with
  | .error e => .error e
  | .ok sh =>
    match resolvedDtype shape dtype with
    | none => .error "dtype cannot be None"
    | some dt =>
      .ok { _shape := if use_n1 then applyUseN1 sh else sh
            _dtype := some dt
            name := name }

/-- Python `name or self.name` used by `ShapeObject.copy`: the override
wins unless it is falsy (`None` or the empty string). -/
def pyOrName (name selfName : Option String) : Option String :=
  match name with
  | some s => if s = "" then selfName else some s
  | none => selfName

/-- `"{}-SUF".format(self.name)`: formats the optional name the way
Python string interpolation renders it. -/
def fmtOptName : Option String → String
  | none => "None"
  | some s => s

/-- `ShapeObject.copy(dtype, name)`: rebuilds a `ShapeObject` over the
same dimension list (each entry re-wrapped by the constructor), with
the stored dtype unless overridden. -/
def ShapeObject.copy (s : ShapeObject) (dtype : Option DType)
    (name : Option String) : Except String ShapeObject :=
  match s._shape with
  | none => ShapeObject.init .pynone s._dtype false (pyOrName name s.name)
  | some l =>
    ShapeObject.init (.dims (l.map PyValue.dimObj))
      (match dtype with | none => s._dtype | some d => some d)
      false (pyOrName name s.name)

/-- `ShapeObject.__getitem__(self, index)`: `None` when the shape is
unknown, the Python integer `1` when the index is past the end,
otherwise the stored `DimensionObject`. -/
def ShapeObject.getitem (s : ShapeObject) (index : Nat) :
    Option (Sum Int DimensionObject) :=
  match s._shape with
  | none => none
  | some l =>
    if h : index < l.length then some (.inr (l.get ⟨index, h⟩))
    else some (.inl 1)

/-- The `while len(self._shape) <= index` loop of
`ShapeObject.__setitem__`: appends `DimensionObject(1)` until the list
is long enough to hold position `index`. -/
def padOnes (l : List DimensionObject) (index : Nat) : List DimensionObject :=
  if l.length ≤ index then padOnes (l ++ [DimensionObject.mk (.int 1)]) index
  else l
termination_by index + 1 - l.length
decreasing_by
  simp [List.length_append]
  omega

/-- `ShapeObject.__setitem__(self, index, value)`: no-op on an unknown
shape, otherwise pad with `1`s then store `value` at `index` (the
mutation is modelled by returning the updated object). -/
def ShapeObject.setitem (s : ShapeObject) (index : Nat)
    (value : DimensionObject) : ShapeObject :=
  match s._shape with
  | none => s
  | some l => { s with _shape := some ((padOnes l index).set index value) }

/-- `ShapeObject.__len__`. -/
def ShapeObject.len (s : ShapeObject) : Nat :=
  match s._shape with
  | none => 0
  | some l => l.length

/-- `ShapeObject.__eq__(self, a)` for `a` a `ShapeObject`: both unknown
→ `True`; exactly one unknown → `False`; different lengths → `False`;
otherwise `False` as soon as a dimension pair compares unequal through
`DimensionObject.__eq__`, else `True`. -/
def ShapeObject.eqShape (s a : ShapeObject) : Bool :=
  match s._shape, a._shape with
  | none, none => true
  | none, some _ => false
  | some _, none => false
  | some l1, some l2 =>
    if l1.length ≠ l2.length then false
    else (l1.zip l2).all (fun p => p.1.eqPy (.dimObj p.2))

/-- Python list deletion `del l[i]` with negative-index wraparound;
an index out of range raises `IndexError`. -/
def pyDelIdx (l : List α) (i : Int) : Except String (List α) :=
  let j : Int := if 0 ≤ i then i else i + l.length
  if 0 ≤ j ∧ j < (l.length : Int) then .ok (l.eraseIdx j.toNat)
  else .error "list index out of range"

/-- Python list read `l[i]` with negative-index wraparound; an index
out of range raises `IndexError`. -/
def pyGetIdx (l : List α) (i : Int) : Except String α :=
  let j : Int := if 0 ≤ i then i else i + l.length
  if h : 0 ≤ j ∧ j.toNat < l.length then .ok (l.get ⟨j.toNat, h.2⟩)
  else .error "list index out of range"

/-- `ShapeObject.reduce(axis, keepdims, dtype)`: on an unknown shape a
copy (renamed when a name exists); otherwise, for an in-range axis,
the axis is replaced by `DimensionObject(1)` (`keepdims`) or deleted,
and a new `ShapeObject` is built over the result; otherwise
`IndexError`. -/
def ShapeObject.reduce (s : ShapeObject) (axis : Int) (keepdims : Bool)
    (dtype : Option DType) : Except String ShapeObject :=
  match s._shape with
  | none =>
    match s.name with
    | none => s.copy none none
    | some _ => s.copy none (some (fmtOptName s.name ++ "-RD"))
  | some l =>
    if 0 ≤ axis ∧ axis < (l.length : Int) then
      let cp := if keepdims then l.set axis.toNat (DimensionObject.ofArg (.int 1))
                else l.eraseIdx axis.toNat
      ShapeObject.init (.dims (cp.map PyValue.dimObj))
        (match dtype with | none => s._dtype | some d => some d)
        false (some (fmtOptName s.name ++ "-RD"))
    else .error "axis is wrong"

/-- The axis argument of `drop_axis`: a single index or a tuple/list
of indices. -/
inductive AxisArg where
  | one : Int → AxisArg
  | many : List Int → AxisArg

/-- Insertion step of the descending sort used by `drop_axis`. -/
def insertDesc (x : Int) : List Int → List Int
  | [] => [x]
  | y :: ys => if y ≤ x then x :: y :: ys else y :: insertDesc x ys

/-- `sorted(axis, reverse=True)`. -/
def sortDesc : List Int → List Int
  | [] => []
  | x :: xs => insertDesc x (sortDesc xs)

/-- `ShapeObject.drop_axis(axis)`: deletes the given axis (or each of
the given axes, visited in descending order) from a known shape; no-op
on an unknown shape.  The in-place mutation is modelled by returning
the updated object. -/
def ShapeObject.drop_axis (s : ShapeObject) (axis : AxisArg) :
    Except String ShapeObject :=
  match s._shape with
  | none => .ok s
  | some l =>
    match axis with
    | .one i => (pyDelIdx l i).map (fun l2 => { s with _shape := some l2 })
    | .many li =>
      ((sortDesc li).foldlM (fun acc i => pyDelIdx acc i) l).map
        (fun l2 => { s with _shape := some l2 })

/-- `ShapeObject.squeeze(axis)`: a renamed copy with the axis dropped. -/
def ShapeObject.squeeze (s : ShapeObject) (axis : AxisArg) :
    Except String ShapeObject := do
  let cp ← s.copy none (some (fmtOptName s.name ++ "-SZ"))
  cp.drop_axis axis

/-- The entry-overwriting loop of `ShapeObject.transpose`: entry `i`
of the result is `self._shape[perm[i]]`; for `perm[i] >= len(self)`
the source stores a bare Python `None` in the list after the comment
"This should not happen"; that dead branch is modelled as the unknown
dimension. -/
def transposeEntries (l : List DimensionObject) (perm : List Int) :
    Except String (List DimensionObject) :=
  perm.mapM (fun p =>
    if (l.length : Int) ≤ p then .ok (DimensionObject.mk .unknown)
    else pyGetIdx l p)

/-- `ShapeObject.transpose(perm)`: on an unknown shape a renamed copy;
otherwise a fresh all-unknown shape of the permutation's length whose
entry `i` is then overwritten with `self._shape[perm[i]]`.  For
`perm[i] >= len(self)` the source stores a bare Python `None` in the
list after the comment "This should not happen"; that dead branch is
modelled as the unknown dimension. -/
def ShapeObject.transpose (s : ShapeObject) (perm : List Int) :
    Except String ShapeObject :=
  match s._shape with
  | none => s.copy none (some (fmtOptName s.name ++ "-TR"))
  | some l => do
    let cp ← ShapeObject.init (.dims (perm.map (fun _ => PyValue.pynone)))
      s._dtype false (some (fmtOptName s.name ++ "-TR"))
    let entries ← transposeEntries l perm
    .ok { cp with _shape := some entries }

/-- View of an evaluation result as a constructor argument, as in
`ShapeObject.evaluate` where the evaluated dimensions are fed back to
`ShapeObject.__init__`. -/
def EvalRes.toPyValue : EvalRes → PyValue
  | .int n => .int n
  | .str s => .str s

/-- `ShapeObject.evaluate(**kwargs)`: evaluates every dimension (an
unknown shape iterates as empty) and builds a new `ShapeObject` over
the results. -/
def ShapeObject.evaluate (s : ShapeObject) (kw : Bindings) :
    Except String ShapeObject :=
  let ds : List DimensionObject := match s._shape with
    | none => []
    | some l => l
  let vs := ds.map (fun d => d.evaluate kw)
  ShapeObject.init (.dims (vs.map EvalRes.toPyValue)) s._dtype false
    (some (fmtOptName s.name ++ "-EV"))

/-- A scalar held by the label-encoder tables: a numpy float (modelled
as a rational, exact for the inputs used), an int64, or a string. -/
inductive Scalar where
  | f : Rat → Scalar
  | i : Int → Scalar
  | s : String → Scalar
deriving DecidableEq

/-- The numpy dtype chosen for the label-encoder output. -/
inductive ScalarKind where
  | float32 : ScalarKind
  | int64 : ScalarKind
  | npstr : ScalarKind
deriving DecidableEq

/-- The attributes of the `LabelEncoder` kernel, with the defaults of
its `atts` table (`classes_strings_present` models
`hasattr(self, "classes_strings")`, the version-1 attribute). -/
structure LabelEncoderAtts where
  default_float : Rat
  default_int64 : Int
  default_string : String
  keys_floats : List Rat
  keys_int64s : List Int
  keys_strings : List String
  values_floats : List Rat
  values_int64s : List Int
  values_strings : List String
  classes_strings_present : Bool

/-- The constructed `LabelEncoder` kernel state: its lookup dict (as
the insertion list produced by `zip`), default and output dtype. -/
structure LabelEncoderK where
  classes_ : List (Scalar × Scalar)
  default_ : Scalar
  dtype_ : ScalarKind

/-- Python dict built from an insertion list, queried with
`d.get(k, default)`: the last insertion of a key wins. -/
def dictGet (l : List (Scalar × Scalar)) (k d : Scalar) : Scalar :=
  match l.reverse.find? (fun p => p.1 == k) with
  | some p => p.2
  | none => d

/-- `LabelEncoder.__init__`: picks the first non-empty keys attribute
in the order floats, int64s, strings, zipping it with the
*same-typed* values attribute; raises on the version-1 attribute and
when no keys attribute is populated. -/
def LabelEncoderK.init (a : LabelEncoderAtts) : Except String LabelEncoderK :=
  if 0 < a.keys_floats.length then
    .ok { classes_ := (a.keys_floats.zip a.values_floats).map
            (fun p => (Scalar.f p.1, Scalar.f p.2))
          default_ := .f a.default_float
          dtype_ := .float32 }
  else if 0 < a.keys_int64s.length then
    .ok { classes_ := (a.keys_int64s.zip a.values_int64s).map
            (fun p => (Scalar.i p.1, Scalar.i p.2))
          default_ := .i a.default_int64
          dtype_ := .int64 }
  else if 0 < a.keys_strings.length then
    .ok { classes_ := (a.keys_strings.zip a.values_strings).map
            (fun p => (Scalar.s p.1, Scalar.s p.2))
          default_ := .s a.default_string
          dtype_ := .npstr }
  else if a.classes_strings_present then
    .error "This runtime does not implement version 1 of operator LabelEncoder."
  else .error "No encoding was defined."

/-- `LabelEncoder._run(x)`: per-element dict lookup with the stored
default on a miss. -/
def LabelEncoderK.run (e : LabelEncoderK) (x : List Scalar) : List Scalar :=
  x.map (fun v => dictGet e.classes_ v e.default_)

/-- The attributes of the `LinearRegressor` kernel (`atts` defaults:
`coefficients = None`, `intercepts = None`, `targets = 1`,
`post_transform = NONE`).  The numeric arrays hold exact integer
values in every verified claim, so they are modelled over `Int`. -/
structure LinearRegressorAtts where
  coefficients : Option (List Int)
  intercepts : Option (List Int)
  targets : Nat
  post_transform : String

/-- The constructed `LinearRegressor` kernel state: the coefficient
matrix after `reshape(targets, n).T` (stored as its rows, an
`n × targets` matrix). -/
structure LinearRegressorK where
  coefficients : List (List Int)
  intercepts : Option (List Int)
  targets : Nat
  post_transform : String

/-- Splits a flat list into `r` rows of `c` elements
(`numpy.reshape(r, c)` on a length-`r*c` array). -/
def chunkRows (c : Nat) : Nat → List Int → List (List Int)
  | 0, _ => []
  | r + 1, l => l.take c :: chunkRows c r (l.drop c)

/-- `numpy.ndarray.reshape(r, c)`: fails unless the element count
matches. -/
def npReshape (l : List Int) (r c : Nat) : Except String (List (List Int)) :=
  if r * c = l.length then .ok (chunkRows c r l)
  else .error "cannot reshape array"

/-- `LinearRegressor.__init__`: requires a coefficient array, computes
`n = len(coefficients) // targets` (`targets = 0` would raise a
`ZeroDivisionError` in Python) and stores
`coefficients.reshape(targets, n).T`. -/
def LinearRegressorK.init (a : LinearRegressorAtts) :
    Except String LinearRegressorK := do
  match a.coefficients with
  | none => .error "coefficient must be an array"
  | some cs =>
    if a.targets = 0 then .error "integer division by zero"
    else do
      let n := cs.length / a.targets
      let m ← npReshape cs a.targets n
      .ok { coefficients := m.transpose
            intercepts := a.intercepts
            targets := a.targets
            post_transform := a.post_transform }

/-- `numpy.dot` of a length-`k` vector with a `k × t` matrix. -/
def npDot (x : List Int) (m : List (List Int)) : Except String (List Int) :=
  if x.length = m.length then
    .ok (m.transpose.map (fun col => ((x.zip col).map (fun p => p.1 * p.2)).sum))
  else .error "shapes not aligned"

/-- numpy `+` on two 1-D arrays with broadcasting of a length-one
operand. -/
def npAdd (a b : List Int) : Except String (List Int) :=
  if a.length = b.length then .ok ((a.zip b).map (fun p => p.1 + p.2))
  else
    match a, b with
    | a, [c] => .ok (a.map (fun v => v + c))
    | [c], b => .ok (b.map (fun v => c + v))
    | _, _ => .error "operands could not be broadcast together"

/-- The score computation of `LinearRegressor._run` before the
post-transform check: `numpy.dot(x, coefficients)` plus the
intercepts when present. -/
def LinearRegressorK.score (r : LinearRegressorK) (x : List Int) :
    Except String (List Int) := do
  let s ← npDot x r.coefficients
  match r.intercepts with
  | none => .ok s
  | some ic => npAdd s ic

/-- `LinearRegressor._run(x)`: the score is returned unchanged when
`post_transform` is `NONE`; any other value raises
`NotImplementedError`. -/
def LinearRegressorK.run (r : LinearRegressorK) (x : List Int) :
    Except String (List Int) := do
  let s ← r.score x
  if r.post_transform = "NONE" then .ok s
  else .error ("Unknown post_transform: " ++ r.post_transform)

/-! ## Theorems for the claims -/

/-- C1 (counterexample): the claim states that `>` never reports an
unknown dimension greater than a known integer, but
`DimensionObject.__gt__` returns `True` for
`DimensionObject(None) > DimensionObject(3)` (source line
`if self._dim is None and isinstance(obj._dim, int): return True`). -/
theorem dim_gt_unknown_over_int_counterexample :
    DimensionObject.gtPy (.mk .unknown) (.mk (.int 3)) = some true := rfl

/-- C1 (amended): for two known-integer dimensions `>` is the numeric
integer comparison; a known integer is never reported greater than an
unknown dimension; an unknown dimension is always reported greater
than a known integer. -/
theorem dim_gt_known_unknown_order (m n : Int) :
    DimensionObject.gtPy (.mk (.int m)) (.mk (.int n)) = some (decide (m > n))
    ∧ DimensionObject.gtPy (.mk .unknown) (.mk (.int n)) = some true
    ∧ DimensionObject.gtPy (.mk (.int m)) (.mk .unknown) = some false :=
  ⟨rfl, rfl, rfl⟩

/-- C3 (code bug): a lookup kernel declared with keys `[1, 2]`
(`keys_int64s`), values `["a", "b"]` (`values_strings`) and default
`"z"` (`default_string`) should map input `[1, 3]` to `["a", "z"]`;
the constructor instead zips `keys_int64s` with the *empty*
`values_int64s`, producing an empty table with the int64 default `-1`,
so the kernel returns `[-1, -1]`. -/
theorem label_encoder_mixed_types_returns_default :
    (LabelEncoderK.init
        ⟨0, -1, "z", [], [1, 2], [], [], [], ["a", "b"], false⟩).map
      (fun e => e.run [.i 1, .i 3])
      = .ok [Scalar.i (-1), Scalar.i (-1)] := rfl

/-- C4: the regression kernel with coefficients `[1, 2]`, intercepts
`[1]`, a single target and post-transform `NONE` maps the input
`[3, 4]` to the single score `3*1 + 4*2 + 1 = 12`. -/
theorem linear_regressor_concrete_score :
    (LinearRegressorK.init ⟨some [1, 2], some [1], 1, "NONE"⟩).bind
      (fun r => r.run [3, 4]) = .ok [12] := rfl

/-- C5: `evaluate` is a homomorphism over `+`: whenever a binding
resolves both operands to integers, evaluating the expression
dimension `A + B` yields the sum of the two evaluations. -/
theorem dim_add_evaluate_hom (A B : DimensionObject) (kw : Bindings)
    (m k : Int) (hA : A.evaluate kw = .int m) (hB : B.evaluate kw = .int k) :
    (A.add (.dimObj B)).evaluate kw = .int (m + k) := by
  simp [DimensionObject.add, DimensionObject.same, DimensionObject.evaluate,
    ShapeOp.evaluate, hA, hB, binOpEval]

/-- C5 (witness): with `A` the symbol `a` bound to `3` and `B` the
integer `2`, the expression `A + B` evaluates to `5`. -/
theorem dim_add_evaluate_hom_witness :
    ((DimensionObject.mk (.str "a")).add (.dimObj (.mk (.int 2)))).evaluate
      [("a", .int 3)] = .int 5 :=
  dim_add_evaluate_hom (.mk (.str "a")) (.mk (.int 2)) [("a", .int 3)] 3 2 rfl rfl

/-- C8: combining two dimensions with `+` or `*` returns a new
expression dimension that stores the two operands unchanged as the
operator's arguments (so evaluation is deferred), and is a different
object from either operand. -/
theorem dim_add_mul_pure (A B : DimensionObject) :
    (A.add (.dimObj B)).dim = .op (.add A B)
    ∧ (A.mul (.dimObj B)).dim = .op (.mul A B)
    ∧ A.add (.dimObj B) ≠ A ∧ A.add (.dimObj B) ≠ B
    ∧ A.mul (.dimObj B) ≠ A ∧ A.mul (.dimObj B) ≠ B := by
  refine ⟨rfl, rfl, ?_, ?_, ?_, ?_⟩ <;>
  · intro h
    have := congrArg DimensionObject.msz h
    simp [DimensionObject.add, DimensionObject.mul, DimensionObject.same,
      DimensionObject.msz, DimVal.msz, ShapeOp.msz] at this
    omega

/-- C8 (witness): the combination of the dimensions `2` and `3`. -/
theorem dim_add_mul_pure_witness :
    ((DimensionObject.mk (.int 2)).add (.dimObj (.mk (.int 3)))).dim
      = .op (.add (.mk (.int 2)) (.mk (.int 3))) :=
  (dim_add_mul_pure (.mk (.int 2)) (.mk (.int 3))).1

/-- C9: the constructor maps the integer `0`, `None` and the string
`"?"` all to the unknown placeholder, `DimensionObject(0)` compares
equal to `DimensionObject(None)`, and no constructed dimension ever
stores a known extent of zero. -/
theorem dim_zero_is_unknown :
    DimensionObject.ofArg (.int 0) = .mk .unknown
    ∧ DimensionObject.ofArg .pynone = .mk .unknown
    ∧ DimensionObject.ofArg (.str "?") = .mk .unknown
    ∧ (DimensionObject.ofArg (.int 0)).eqPy
        (.dimObj (DimensionObject.ofArg .pynone)) = true
    ∧ ∀ n : Int, (DimensionObject.ofArg (.int n)).dim ≠ .int 0 := by
  refine ⟨rfl, rfl, rfl, ?_, ?_⟩
  · simp [DimensionObject.ofArg, DimensionObject.eqPy]
  · intro n
    by_cases h : n = 0 <;> simp [DimensionObject.ofArg, h, DimensionObject.dim]

/-- C9 (witness): the dimension constructed from `5` does not store a
zero extent. -/
theorem dim_zero_is_unknown_witness :
    (DimensionObject.ofArg (.int 5)).dim ≠ .int 0 :=
  dim_zero_is_unknown.2.2.2.2 5

/-- C2: shape equality is `true` for two unknown-shape sentinels,
`false` when exactly one side is the sentinel, `false` for two known
shapes of different rank, and `false` for two known shapes of equal
rank as soon as some dimension pair compares unequal. -/
theorem shape_eq_spec (s a : ShapeObject) :
    (s._shape = none → a._shape = none → s.eqShape a = true)
    ∧ (s._shape = none → a._shape ≠ none → s.eqShape a = false)
    ∧ (s._shape ≠ none → a._shape = none → s.eqShape a = false)
    ∧ (∀ l1 l2, s._shape = some l1 → a._shape = some l2 →
        l1.length ≠ l2.length → s.eqShape a = false)
    ∧ (∀ (l1 l2 : List DimensionObject) (i : Nat)
        (h1 : i < l1.length) (h2 : i < l2.length),
        s._shape = some l1 → a._shape = some l2 →
        (l1.get ⟨i, h1⟩).eqPy (.dimObj (l2.get ⟨i, h2⟩)) = false →
        s.eqShape a = false) := by
  refine ⟨?_, ?_, ?_, ?_, ?_⟩
  · intro hs ha; simp [ShapeObject.eqShape, hs, ha]
  · intro hs ha
    cases h : a._shape with
    | none => exact absurd h ha
    | some l2 => simp [ShapeObject.eqShape, hs, h]
  · intro hs ha
    cases h : s._shape with
    | none => exact absurd h hs
    | some l1 => simp [ShapeObject.eqShape, h, ha]
  · intro l1 l2 hs ha hlen
    simp [ShapeObject.eqShape, hs, ha, hlen]
  · intro l1 l2 i h1 h2 hs ha hpair
    simp only [ShapeObject.eqShape, hs, ha]
    by_cases hlen : l1.length = l2.length
    · simp only [hlen, ne_eq, not_true_eq_false, if_false]
      by_contra hc
      rw [Bool.not_eq_false, List.all_eq_true] at hc
      have hz : i < (l1.zip l2).length := by
        rw [List.length_zip]; omega
      have hmem : (l1.zip l2)[i] ∈ l1.zip l2 := List.getElem_mem hz
      have := hc _ hmem
      rw [List.getElem_zip] at this
      simp only [List.get_eq_getElem] at hpair
      rw [hpair] at this
      exact Bool.false_ne_true this
    · simp [hlen]

/-- C2 (witness): the one-dimensional shapes `(2,)` and `(3,)` differ
in their first dimension pair, so they compare unequal. -/
theorem shape_eq_spec_witness :
    ShapeObject.eqShape ⟨some [.mk (.int 2)], some "f", none⟩
      ⟨some [.mk (.int 3)], some "f", none⟩ = false :=
  (shape_eq_spec _ _).2.2.2.2 [.mk (.int 2)] [.mk (.int 3)] 0
    (by decide) (by decide) rfl rfl (by simp [DimensionObject.eqPy])

/-- C6: the regression kernel's compute step returns the score
unchanged exactly when `post_transform` is `NONE`, and for any other
post-transform value it raises instead of returning a result: whenever
the score computation itself succeeds, success of the whole run is
equivalent to `post_transform = NONE`, and a non-`NONE` post-transform
never yields an output. -/
theorem linear_regressor_post_transform_guard (r : LinearRegressorK)
    (x : List Int) :
    (∀ sc, r.score x = .ok sc →
      (r.run x = .ok sc ↔ r.post_transform = "NONE"))
    ∧ (r.post_transform ≠ "NONE" → ∀ out, r.run x ≠ .ok out) := by
  constructor
  · intro sc hsc
    constructor
    · intro hrun
      by_contra hpost
      simp [LinearRegressorK.run, hsc, hpost, Bind.bind, Except.bind] at hrun
    · intro hpost
      simp [LinearRegressorK.run, hsc, hpost, Bind.bind, Except.bind]
  · intro hpost out
    cases hsc : r.score x with
    | error e => simp [LinearRegressorK.run, hsc, Bind.bind, Except.bind]
    | ok sc => simp [LinearRegressorK.run, hsc, hpost, Bind.bind, Except.bind]

/-- C6 (witness): with post-transform `PROBIT` the kernel refuses to
return the otherwise well-defined score `[12]`. -/
theorem linear_regressor_post_transform_guard_witness :
    LinearRegressorK.run ⟨[[1], [2]], some [1], 1, "PROBIT"⟩ [3, 4] ≠ .ok [12] :=
  (linear_regressor_post_transform_guard ⟨[[1], [2]], some [1], 1, "PROBIT"⟩
    [3, 4]).2 (by decide) [12]

/-- Closed form of the padding loop of `__setitem__`: it appends
exactly enough `1`-dimensions to make position `index` addressable. -/
theorem padOnes_closed (l : List DimensionObject) (i : Nat) :
    padOnes l i
      = l ++ List.replicate (i + 1 - l.length) (DimensionObject.mk (.int 1)) := by
  unfold padOnes
  split
  · rename_i h
    rw [padOnes_closed (l ++ [DimensionObject.mk (.int 1)]) i]
    rw [List.append_assoc]
    congr 1
    have h1 : i + 1 - l.length = (i - l.length) + 1 := by omega
    have h2 : i + 1 - (l ++ [DimensionObject.mk (.int 1)]).length = i - l.length := by
      simp only [List.length_append, List.length_singleton]; omega
    rw [h1, h2, List.replicate_succ]
    rfl
  · rename_i h
    have : i + 1 - l.length = 0 := by omega
    simp [this]
termination_by i + 1 - l.length
decreasing_by simp [List.length_append]; omega

/-- Setting the position right after a list: only the appended cell
changes. -/
theorem set_after_append (xs : List α) (a v : α) :
    (xs ++ [a]).set xs.length v = xs ++ [v] := by
  induction xs with
  | nil => rfl
  | cons x xs ih => simp [List.set, ih]

/-- C7: reading a known shape at an index past its rank returns the
integer `1`, and writing at such an index pads the dimension list with
`1`-dimensions up to length `index + 1` and stores the value at the
index. -/
theorem shape_getitem_setitem_oob (s : ShapeObject)
    (l : List DimensionObject) (i : Nat) (v : DimensionObject)
    (hs : s._shape = some l) (hi : l.length ≤ i) :
    s.getitem i = some (.inl 1)
    ∧ (s.setitem i v)._shape
      = some (l ++ List.replicate (i - l.length) (DimensionObject.mk (.int 1))
          ++ [v]) := by
  constructor
  · simp only [ShapeObject.getitem, hs]
    rw [dif_neg (by omega)]
  · simp only [ShapeObject.setitem, hs, padOnes_closed]
    have h1 : i + 1 - l.length = (i - l.length) + 1 := by omega
    rw [h1, List.replicate_succ', ← List.append_assoc]
    have h2 : (l ++ List.replicate (i - l.length) (DimensionObject.mk (.int 1))).length = i := by
      simp only [List.length_append, List.length_replicate]; omega
    have h3 := set_after_append
      (l ++ List.replicate (i - l.length) (DimensionObject.mk (.int 1)))
      (DimensionObject.mk (.int 1)) v
    rw [h2] at h3
    rw [h3]

/-- C7 (witness): on the shape `(2,)`, reading index `3` yields `1`
and writing `7` at index `3` pads two `1`s before storing it. -/
theorem shape_getitem_setitem_oob_witness :
    ShapeObject.getitem ⟨some [.mk (.int 2)], some "f", none⟩ 3 = some (.inl 1)
    ∧ (ShapeObject.setitem ⟨some [.mk (.int 2)], some "f", none⟩ 3
        (.mk (.int 7)))._shape
      = some [.mk (.int 2), .mk (.int 1), .mk (.int 1), .mk (.int 7)] := by
  have h := shape_getitem_setitem_oob ⟨some [.mk (.int 2)], some "f", none⟩
    [.mk (.int 2)] 3 (.mk (.int 7)) rfl (by decide)
  simpa using h

/-- Every successfully constructed shape stores the resolved dtype,
which is therefore not `None`. -/
theorem init_dtype_eq (shape : ShapeArg) (dtype : Option DType) (u : Bool)
    (nm : Option String) (s : ShapeObject)
    (h : ShapeObject.init shape dtype u nm = .ok s) :
    s._dtype = resolvedDtype shape dtype ∧ s._dtype ≠ none := by
  unfold ShapeObject.init at h
  cases hsh : resolvedShape shape with
  | error e => rw [hsh] at h; exact absurd h (by simp)
  | ok sh =>
    rw [hsh] at h
    cases hd : resolvedDtype shape dtype with
    | none => rw [hd] at h; exact absurd h (by simp)
    | some dt =>
      rw [hd] at h
      injection h with h
      subst h
      simp

/-- A successful `copy` goes through the constructor, so its result
has a non-`None` dtype. -/
theorem copy_dtype_ok (s : ShapeObject) (d : Option DType)
    (nm : Option String) (r : ShapeObject) (h : s.copy d nm = .ok r) :
    r._dtype ≠ none := by
  unfold ShapeObject.copy at h
  cases hsh : s._shape with
  | none => rw [hsh] at h; exact (init_dtype_eq _ _ _ _ _ h).2
  | some l => rw [hsh] at h; exact (init_dtype_eq _ _ _ _ _ h).2

/-- `drop_axis` never touches the `_dtype` field. -/
theorem drop_axis_dtype (s : ShapeObject) (ax : AxisArg) (r : ShapeObject)
    (h : s.drop_axis ax = .ok r) : r._dtype = s._dtype := by
  unfold ShapeObject.drop_axis at h
  split at h
  · injection h with h; subst h; rfl
  · rename_i l heq
    split at h
    · rename_i i
      cases hd : pyDelIdx l i with
      | error e => rw [hd] at h; exact absurd h (by simp [Except.map])
      | ok l2 =>
        rw [hd] at h
        simp only [Except.map] at h
        injection h with h
        subst h
        rfl
    · rename_i li
      cases hd : (sortDesc li).foldlM (fun acc i => pyDelIdx acc i) l with
      | error e => rw [hd] at h; exact absurd h (by simp [Except.map])
      | ok l2 =>
        rw [hd] at h
        simp only [Except.map] at h
        injection h with h
        subst h
        rfl

/-- C10: construction fails whenever the resolved element type is
`None`; a successfully constructed shape has a non-`None` element
type; and `copy`, `reduce`, `squeeze`, `transpose` and `evaluate` all
return shapes with a non-`None` element type whenever they succeed. -/
theorem shape_dtype_invariant :
    (∀ shape dtype u nm, resolvedDtype shape dtype = none →
      ∃ msg, ShapeObject.init shape dtype u nm = .error msg)
    ∧ (∀ shape dtype u nm s, ShapeObject.init shape dtype u nm = .ok s →
        s._dtype ≠ none)
    ∧ (∀ s d nm r, ShapeObject.copy s d nm = .ok r → r._dtype ≠ none)
    ∧ (∀ s ax kd d r, ShapeObject.reduce s ax kd d = .ok r → r._dtype ≠ none)
    ∧ (∀ s ax r, ShapeObject.squeeze s ax = .ok r → r._dtype ≠ none)
    ∧ (∀ s p r, ShapeObject.transpose s p = .ok r → r._dtype ≠ none)
    ∧ (∀ s kw r, ShapeObject.evaluate s kw = .ok r → r._dtype ≠ none) := by
  refine ⟨?_, ?_, ?_, ?_, ?_, ?_, ?_⟩
  · intro shape dtype u nm hd
    unfold ShapeObject.init
    cases hsh : resolvedShape shape with
    | error e => exact ⟨e, rfl⟩
    | ok sh => rw [hd]; exact ⟨"dtype cannot be None", rfl⟩
  · intro shape dtype u nm s h
    exact (init_dtype_eq _ _ _ _ _ h).2
  · intro s d nm r h
    exact copy_dtype_ok _ _ _ _ h
  · intro s ax kd d r h
    unfold ShapeObject.reduce at h
    split at h
    · split at h
      · exact copy_dtype_ok _ _ _ _ h
      · exact copy_dtype_ok _ _ _ _ h
    · split at h
      · exact (init_dtype_eq _ _ _ _ _ h).2
      · exact absurd h (by simp)
  · intro s ax r h
    unfold ShapeObject.squeeze at h
    simp only [Bind.bind, Except.bind] at h
    cases hcp : s.copy none (some (fmtOptName s.name ++ "-SZ")) with
    | error e => rw [hcp] at h; exact absurd h (by simp)
    | ok cp =>
      rw [hcp] at h
      simp only [Except.bind] at h
      have h1 := copy_dtype_ok _ _ _ _ hcp
      have h2 := drop_axis_dtype _ _ _ h
      rw [h2]
      exact h1
  · intro s p r h
    unfold ShapeObject.transpose at h
    split at h
    · exact copy_dtype_ok _ _ _ _ h
    · rename_i l heq
      simp only [Bind.bind, Except.bind] at h
      cases hcp : ShapeObject.init (.dims (p.map (fun _ => PyValue.pynone)))
          s._dtype false (some (fmtOptName s.name ++ "-TR")) with
      | error e => rw [hcp] at h; exact absurd h (by simp)
      | ok cp =>
        rw [hcp] at h
        simp only [Except.bind] at h
        cases hm : transposeEntries l p with
        | error e => rw [hm] at h; exact absurd h (by simp)
        | ok entries =>
          rw [hm] at h
          simp only [Except.bind] at h
          injection h with h
          subst h
          exact (init_dtype_eq _ _ _ _ _ hcp).2
  · intro s kw r h
    unfold ShapeObject.evaluate at h
    exact (init_dtype_eq _ _ _ _ _ h).2

/-- C10 (witness): a shape built over `(2,)` with dtype `float32`
keeps a non-`None` dtype through `copy`. -/
theorem shape_dtype_invariant_witness :
    (ShapeObject._dtype
      ⟨some [.mk (.dim (.mk (.int 2)))], some "float32", none⟩) ≠ none :=
  shape_dtype_invariant.2.2.1 ⟨some [.mk (.int 2)], some "float32", none⟩
    none none ⟨some [.mk (.dim (.mk (.int 2)))], some "float32", none⟩
    (by simp [ShapeObject.copy, pyOrName, ShapeObject.init, resolvedShape,
      resolvedDtype, DimensionObject.ofArg, DimensionObject.eqPy])

end MlProdict
